import Mathlib

/-!
Verification development for the FreeScribe real-time audio capture,
segmentation, transcription-dispatch and cancellation pipeline.

The definitions below are a shallow embedding of the Python sources:
  - `client_modules/audio_processing.py` (`record_audio`, `is_silent`),
  - `client_modules/transcription.py` (`realtime_text`,
    `double_check_stt_model_loading`, `_load_stt_model_thread`,
    `faster_whisper_transcribe`).
Machine floats accumulating `CHUNK / RATE` seconds are embedded as exact
frame counts compared with cleared denominators; durations in seconds are
recovered through `secondsOf` over `ℚ`.
-/

namespace FreeScribe

/-- Audio constant `AppConstants.CHUNK` (samples per device read). -/
def CHUNK : Nat := 512

/-- Audio constant `AppConstants.RATE` (samples per second). -/
def RATE : Nat := 16000

/-- One captured PCM frame. `data` abstracts the bytes returned by
`stream.read`; `silent` records the VAD verdict `is_silent(...)` that
`record_audio` obtains for this frame. -/
structure Frame where
  data : Nat
  silent : Bool
deriving DecidableEq

/-- Configuration read by `record_audio` at loop start:
`int(settings["Real Time Silence Length"])`,
`int(settings["Real Time Audio Length"])`, and the
`WHISPER_REAL_TIME` toggle. -/
structure RecConfig where
  minSilenceSeconds : Int
  minAudioSeconds : Int
  whisperRealTime : Bool
deriving DecidableEq

/-- Mutable state of the `record_audio` capture loop: `current_chunk`,
the three duration accumulators (kept as frame counts: each loop
iteration adds `CHUNK / RATE` seconds), and the segments pushed onto
`AppContext.audio_queue` so far, in push order. -/
structure RecState where
  currentChunk : List Frame
  silentFrames : Nat
  speechFrames : Nat
  recordFrames : Nat
  queue : List (List Frame)
deriving DecidableEq

/-- Duration in seconds of `frames` loop iterations: each adds
`CHUNK / RATE` seconds to the accumulator. -/
def secondsOf (frames : Nat) : ℚ := (frames * CHUNK : ℚ) / RATE

/-- `int(0.1 * RATE / CHUNK)` — the number of trailing frames carried over
into the next chunk at a boundary cut (source line 182); equals 3. -/
def carryOverFrameCount : Nat := RATE / (10 * CHUNK)

/-- `silent_duration` after processing frame `f` (source lines 160-165):
incremented on a silent frame, reset to zero on a speech frame. -/
def silentFramesAfter (s : RecState) (f : Frame) : Nat :=
  if f.silent then s.silentFrames + 1 else 0

/-- `audio_data_leng` after processing frame `f` (source line 166):
incremented only on a speech frame. -/
def speechFramesAfter (s : RecState) (f : Frame) : Nat :=
  if f.silent then s.speechFrames else s.speechFrames + 1

/-- `record_duration` after processing a frame (source line 170):
incremented on every processed frame. -/
def recordFramesAfter (s : RecState) : Nat :=
  s.recordFrames + 1

/-- The boundary condition of source line 176, with the float comparisons
carried out exactly (denominators cleared):
`silent_duration >= minimum_silent_duration and audio_data_leng > 1.5
and record_duration > minimum_audio_duration`. -/
def cutCondition (cfg : RecConfig) (silentFrames speechFrames recordFrames : Nat) : Bool :=
  decide ((silentFrames * CHUNK : Int) ≥ cfg.minSilenceSeconds * RATE) &&
  decide (speechFrames * CHUNK * 2 > 3 * RATE) &&
  decide ((recordFrames * CHUNK : Int) > cfg.minAudioSeconds * RATE)

/-- Whether processing frame `f` in state `s` cuts a segment boundary
(the branch taken at source line 176). -/
def record_audio_cuts (cfg : RecConfig) (s : RecState) (f : Frame) : Bool :=
  cutCondition cfg (silentFramesAfter s f) (speechFramesAfter s f) (recordFramesAfter s)

/-- `current_chunk[-int(0.1 * RATE / CHUNK):]` — the last (up to) 3 frames
of the cut chunk, seeded into the next chunk (source lines 182-184). -/
def carryOver (chunk : List Frame) : List Frame :=
  chunk.drop (chunk.length - carryOverFrameCount)

/-- Modelled from the spec: the helper `utils.audio.pad_audio_chunk`
(called at source line 178) is part of this repository but its module
`utils/audio.py` is not among the provided sources.  Spec §4.1 describes
the emission as "emit the buffer as a finished Segment", so the emitted
segment is modelled as the buffer itself. -/
def pad_audio_chunk (chunk : List Frame) : List Frame := chunk

/-- One iteration of the `record_audio` capture loop on a non-paused
frame (source lines 147-189): append the frame to the current chunk,
update the duration accumulators, and on a boundary cut push the padded
chunk onto the queue (realtime mode only), seed the next chunk with the
carry-over tail and zero the accumulators. -/
def record_audio_step (cfg : RecConfig) (s : RecState) (f : Frame) : RecState :=
  let chunk := s.currentChunk ++ [f]
  if record_audio_cuts cfg s f then
    { currentChunk := carryOver chunk
      silentFrames := 0
      speechFrames := 0
      recordFrames := 0
      queue :=
        if cfg.whisperRealTime && !chunk.isEmpty then
          s.queue ++ [pad_audio_chunk chunk]
        else s.queue }
  else
    { currentChunk := chunk
      silentFrames := silentFramesAfter s f
      speechFrames := speechFramesAfter s f
      recordFrames := recordFramesAfter s
      queue := s.queue }

/-- Loop state at the start of `record_audio` (source lines 132-134). -/
def record_audio_init : RecState :=
  { currentChunk := [], silentFrames := 0, speechFrames := 0, recordFrames := 0, queue := [] }

/-- Running the capture loop over a frame sequence. -/
def record_audio_run (cfg : RecConfig) (fs : List Frame) : RecState :=
  fs.foldl (record_audio_step cfg) record_audio_init

/-- The flush on recording stop (source lines 195-197): any non-empty
remaining chunk is pushed as one final segment. -/
def record_audio_finish (s : RecState) : List (List Frame) :=
  if s.currentChunk.isEmpty then s.queue else s.queue ++ [s.currentChunk]

/-- Concatenation of queued segments with each segment's carried-over
head (the last `min 3 (length prev)` frames of the previous segment,
duplicated at a boundary cut) removed; `prev` is the preceding segment. -/
def deoverlapFrom : List Frame → List (List Frame) → List Frame
  | _, [] => []
  | prev, seg :: rest =>
      seg.drop (min carryOverFrameCount prev.length) ++ deoverlapFrom seg rest

/-- Concatenation of all segments ignoring the deliberate carry-over
overlap between consecutive segments. -/
def deoverlap : List (List Frame) → List Frame
  | [] => []
  | seg :: rest => seg ++ deoverlapFrom seg rest

/-- The three ways the capture loop can terminate, as claimed:
a normal stop after processing `fs`, a failure to open the microphone
stream (the loop never runs), or an exception raised by a device read
after `fs` was processed. -/
inductive RecordTermination where
  | normalStop (fs : List Frame)
  | openFailure
  | readException (framesRead : List Frame)

/-- The complete sequence of values `record_audio` puts on
`AppContext.audio_queue` for each termination path; `none` is the
sentinel pushed in the `finally` block (source line 207).  On a read
exception the flush of lines 195-197 is skipped (control jumps to the
`except` handler), but segments already queued remain. -/
def record_audio_queue (cfg : RecConfig) : RecordTermination → List (Option (List Frame))
  | .normalStop fs => (record_audio_finish (record_audio_run cfg fs)).map some ++ [none]
  | .openFailure => [none]
  | .readException fs => ((record_audio_run cfg fs).queue).map some ++ [none]

/-- `is_silent` (audio_processing.py lines 214-223): the chunk counts as
silent exactly when the Silero speech probability is strictly below the
threshold. -/
def is_silent (speechProb : ℚ) (threshold : ℚ) : Bool :=
  decide (speechProb < threshold)

/-- Effects the `realtime_text` consumer produces per iteration:
`gui t` is a call `update_gui(t)` and `intents t` a call
`AppContext.window.get_text_intents(t)` (transcription.py lines 137-200). -/
inductive UiEvent where
  | gui (text : String)
  | intents (text : String)
deriving DecidableEq

/-- Loop control after one consumer iteration. -/
inductive LoopControl where
  | continueLoop
  | breakLoop
deriving DecidableEq

/-- Result of one `realtime_text` loop iteration: the UI calls made, the
value of the running `intent_text` variable afterwards, and whether the
loop continues. -/
structure IterOutput where
  ui : List UiEvent
  intentText : String
  control : LoopControl
deriving DecidableEq

/-- One iteration of the local-whisper branch of `realtime_text`
(transcription.py lines 134-147 and 197-202).  `backend` is the outcome
of `faster_whisper_transcribe(audio_buffer)`: `Except.error e` embeds a
raised exception, `Except.ok r` a returned transcript.
`realtimeCanceled` and `wholeCanceled` are the two cancellation flags as
observed at the moment the backend result is ready; the source reads
only `is_audio_processing_realtime_canceled` here (line 145), so
`wholeCanceled` is bound but never consulted, exactly as in the code.
The `local_cancel_flag` of the source is always `False` at line 145
(it is only ever set immediately before a `break`). -/
def realtime_text_local_iter (modelLoaded : Bool) (backend : Except String String)
    (realtimeCanceled wholeCanceled : Bool) (intentText : String) : IterOutput :=
  if !modelLoaded then
    { ui := [.gui "Local Whisper model not loaded. Please check your settings."]
      intentText := intentText
      control := .breakLoop }
  else
    let errorUi : List UiEvent :=
      match backend with
      | .ok _ => []
      | .error e => [.gui ("\nError: " ++ e ++ "\n")]
    let result : String :=
      match backend with
      | .ok r => r
      | .error _ => ""
    if !realtimeCanceled then
      { ui := errorUi ++ [.gui result, .intents result]
        intentText := result
        control := .continueLoop }
    else
      { ui := errorUi ++ [.intents intentText]
        intentText := intentText
        control := .continueLoop }

/-- Outcome of the `requests.post` call of the remote branch: either a
response with its HTTP status, body text and parsed `json()['text']`
field, or a raised exception. -/
inductive HttpOutcome where
  | response (status : Nat) (body : String) (text : String)
  | exc (message : String)
deriving DecidableEq

/-- One iteration of the remote-whisper branch of `realtime_text`
(transcription.py lines 148-202).  Publication of a 200-response's text
is guarded only by the realtime cancellation flag (line 187); a non-200
status is surfaced as an error message carrying the status (line 191),
not gated on any flag. -/
def realtime_text_remote_iter (resp : HttpOutcome)
    (realtimeCanceled wholeCanceled : Bool) (intentText : String) : IterOutput :=
  match resp with
  | .exc e =>
      { ui := [.gui ("Error: " ++ e), .intents intentText]
        intentText := intentText
        control := .continueLoop }
  | .response status body text =>
      if status == 200 then
        if !realtimeCanceled then
          { ui := [.gui text, .intents text], intentText := text, control := .continueLoop }
        else
          { ui := [.intents intentText], intentText := intentText, control := .continueLoop }
      else
        { ui := [.gui ("Error (HTTP Status " ++ toString status ++ "): " ++ body),
                 .intents intentText]
          intentText := intentText
          control := .continueLoop }

/-- The `realtime_text` consumer loop over the local-whisper path
(transcription.py lines 122-203), with the two cancellation flags held
fixed over the run.  Queue items are `some backend` for an audio segment
(paired with its backend outcome) and `none` for the end-of-stream
sentinel; the cancel check at the top of the loop (line 124) runs before
the dequeue, so a cancelled loop leaves the queue untouched.  Returns
the UI calls made and the queue items left unconsumed. -/
def realtime_text_local_loop (modelLoaded realtimeCanceled wholeCanceled : Bool) :
    String → List (Option (Except String String)) →
    List UiEvent × List (Option (Except String String))
  | _, [] => ([], [])
  | intentText, item :: rest =>
    if realtimeCanceled then ([], item :: rest)
    else
      match item with
      | none => ([], rest)
      | some backend =>
        let out := realtime_text_local_iter modelLoaded backend
          realtimeCanceled wholeCanceled intentText
        match out.control with
        | .breakLoop => (out.ui, rest)
        | .continueLoop =>
          let next := realtime_text_local_loop modelLoaded realtimeCanceled wholeCanceled
            out.intentText rest
          (out.ui ++ next.1, next.2)

/-- Shared state of the model-loading protocol:
`AppContext.stt_local_model` (loaded or `None`),
`AppContext.stt_model_loading_thread_lock`, the number of
`WhisperModel(...)` constructions executed so far, and a program counter
for each of the two threads. -/
structure LoadState where
  modelLoaded : Bool
  lockLocked : Bool
  loadCount : Nat
  pcCheck : Nat
  pcLoad : Nat
deriving DecidableEq

/-- One atomic step of the start-recording double-check trigger
(`double_check_stt_model_loading`, transcription.py lines 52-93,
followed by the `_load_stt_model_thread` body it spawns and joins):
pc 0 — the `if AppContext.stt_local_model` check (line 62);
pc 1 — the `stt_model_loading_thread_lock.locked()` poll (lines 66/85),
        spinning while the lock is held;
pc 2 — the re-check `if AppContext.stt_local_model is None` (line 90);
pc 3 — acquiring the lock in `_load_stt_model_thread` (line 231),
        blocking while it is held;
pc 4 — constructing `WhisperModel(...)` and releasing the lock
        (lines 243-258, folded into one step executed under the lock);
pc 5 — done. -/
def double_check_thread_step (s : LoadState) : LoadState :=
  match s.pcCheck with
  | 0 => if s.modelLoaded then { s with pcCheck := 5 } else { s with pcCheck := 1 }
  | 1 => if s.lockLocked then s else { s with pcCheck := 2 }
  | 2 => if s.modelLoaded then { s with pcCheck := 5 } else { s with pcCheck := 3 }
  | 3 => if s.lockLocked then s else { s with lockLocked := true, pcCheck := 4 }
  | 4 => { s with modelLoaded := true, loadCount := s.loadCount + 1,
                  lockLocked := false, pcCheck := 5 }
  | _ => s

/-- One atomic step of the background pre-load thread
(`load_stt_model` → `_load_stt_model_thread`, transcription.py lines
220-269): it acquires the lock (pc 3) and then loads unconditionally
(pc 4) — there is no model check inside the lock. -/
def load_thread_step (s : LoadState) : LoadState :=
  match s.pcLoad with
  | 3 => if s.lockLocked then s else { s with lockLocked := true, pcLoad := 4 }
  | 4 => { s with modelLoaded := true, loadCount := s.loadCount + 1,
                  lockLocked := false, pcLoad := 5 }
  | _ => s

/-- Interleaved execution: each schedule entry names the thread taking
the next step (`true` = background pre-load, `false` = double-check
trigger). -/
def stt_exec : List Bool → LoadState → LoadState
  | [], s => s
  | threadIsLoader :: rest, s =>
      stt_exec rest (if threadIsLoader then load_thread_step s else double_check_thread_step s)

/-- Initial state: model not loaded, lock free, no load executed; the
double-check trigger is at its first check, the background pre-load is
about to acquire the lock. -/
def stt_init : LoadState :=
  { modelLoaded := false, lockLocked := false, loadCount := 0, pcCheck := 0, pcLoad := 3 }

/-- The hardcoded wait bound of `double_check_stt_model_loading`
(transcription.py line 71), in seconds. -/
def double_check_timeout : Nat := 300

/-- How a run of the lock-wait poll of `double_check_stt_model_loading`
(transcription.py lines 74-86) ends. -/
inductive WaitOutcome where
  | canceled
  | timedOut
  | lockReleased
deriving DecidableEq

/-- The lock-wait polling loop (transcription.py lines 74-86).  Iteration
`n` first sleeps 0.1 s — so the elapsed monotonic time is modelled as
`(n + 1) / 10` seconds — then checks, in source order: the user-cancel
variable, the timeout, and whether the lock has been released.  The
first argument of the recursion is fuel; `none` means the fuel ran out
before the loop returned (shown below never to happen with fuel 3001). -/
def double_check_wait_loop (cancelAt lockLockedAt : Nat → Bool) :
    Nat → Nat → Option WaitOutcome
  | 0, _ => none
  | fuel + 1, n =>
    if cancelAt n then some .canceled
    else if ((n + 1 : ℚ) / 10 > (double_check_timeout : ℚ)) then some .timedOut
    else if !(lockLockedAt n) then some .lockReleased
    else double_check_wait_loop cancelAt lockLockedAt fuel (n + 1)

/-- What each wait outcome produces (transcription.py lines 76-86 and
26-49): `startRecording` is the ready-flag `threaded_check_stt_model`
returns (recording starts only on `true`), `timeoutErrorShown` the
timeout `messagebox.showerror`, and `reportedCanceled` the
`task_cancel_var` that makes the toggle report a cancellation. -/
structure DoubleCheckResult where
  startRecording : Bool
  timeoutErrorShown : Bool
  reportedCanceled : Bool
deriving DecidableEq

/-- Mapping from wait outcome to observable result: user cancel returns
with the cancel variable set and no error box; timeout shows the error
box and sets the cancel variable; a released lock lets the double check
proceed. -/
def double_check_outcome : WaitOutcome → DoubleCheckResult
  | .canceled => { startRecording := false, timeoutErrorShown := false, reportedCanceled := true }
  | .timedOut => { startRecording := false, timeoutErrorShown := true, reportedCanceled := true }
  | .lockReleased => { startRecording := true, timeoutErrorShown := false, reportedCanceled := false }

/-- Outcome of a call to `faster_whisper_transcribe`: either a raised
`TranscribeError` or a normally returned string. -/
inductive TranscribeOutcome where
  | raised (message : String)
  | returned (text : String)
deriving DecidableEq

/-- A call outcome together with whether
`AppContext.stt_local_model.transcribe(...)` was actually invoked. -/
structure TranscribeCall where
  outcome : TranscribeOutcome
  modelInvoked : Bool
deriving DecidableEq

/-- The error string returned on an invalid beam size (transcription.py
line 313).  The displayed name of the setting comes from
`SettingsKeys.WHISPER_BEAM_SIZE.value` (its constant module is not among
the provided sources); the trailing part is `str(e)`. -/
def beam_size_error_text (detail : String) : String :=
  "Invalid Whisper Beam Size parameter. Please go into the advanced settings and ensure you have a integer greater than 0: " ++ detail

/-- `str(e)` for the `ValueError` raised at transcription.py line 311
when the configured beam size parses but is not positive. -/
def beam_size_not_positive_text : String :=
  "Whisper Beam Size must be greater than 0 in advanced settings"

/-- `faster_whisper_transcribe` (transcription.py lines 289-344).
`beamSize` is the result of `int(settings[WHISPER_BEAM_SIZE])`: `none`
embeds a `ValueError`/`TypeError` from the conversion (with `str(e)` as
`parseErrorDetail`), `some b` the converted integer.  `modelText` is the
text the model call would produce (post-processing included).  A missing
model raises a `TranscribeError` via the outer handler (lines 303-305
and 341-344); an invalid beam size returns the error string of line 313
without invoking the model. -/
def faster_whisper_transcribe (modelLoaded : Bool) (beamSize : Option Int)
    (parseErrorDetail : String) (modelText : String) : TranscribeCall :=
  if !modelLoaded then
    { outcome := .raised "Transcription failed: Speech2Text model not loaded. Please try again once loaded."
      modelInvoked := false }
  else
    match beamSize with
    | none =>
        { outcome := .returned (beam_size_error_text parseErrorDetail), modelInvoked := false }
    | some b =>
        if b ≤ 0 then
          { outcome := .returned (beam_size_error_text beam_size_not_positive_text)
            modelInvoked := false }
        else
          { outcome := .returned modelText, modelInvoked := true }

/-- Whether a call surfaced its failure to the caller as a typed
(raised) error. -/
def raisesTypedError (c : TranscribeCall) : Bool :=
  match c.outcome with
  | .raised _ => true
  | .returned _ => false

/-- Loop invariant of the capture loop relating the state to the frames
`fs` processed so far: before the first cut the chunk is exactly `fs`;
afterwards the de-overlapped queue followed by the part of the current
chunk beyond its carried-over head reconstructs `fs`. -/
def RecInv (fs : List Frame) (s : RecState) : Prop :=
  (s.queue = [] ∧ s.currentChunk = fs) ∨
  (s.queue ≠ [] ∧
   min carryOverFrameCount (s.queue.getLast?.getD []).length ≤ s.currentChunk.length ∧
   deoverlap s.queue ++
     s.currentChunk.drop (min carryOverFrameCount (s.queue.getLast?.getD []).length) = fs)

/-- States reachable once the background pre-load has acquired the lock
before the double-check trigger took any step: either the pre-load is
mid-load (lock held, no load counted yet, the trigger still before its
lock poll) or the load finished (model loaded, exactly one load counted,
the trigger somewhere on its check path or done). -/
def SttSafe (s : LoadState) : Prop :=
  (s.modelLoaded = false ∧ s.lockLocked = true ∧ s.loadCount = 0 ∧ s.pcLoad = 4 ∧
    (s.pcCheck = 0 ∨ s.pcCheck = 1)) ∨
  (s.modelLoaded = true ∧ s.lockLocked = false ∧ s.loadCount = 1 ∧ s.pcLoad = 5 ∧
    (s.pcCheck = 0 ∨ s.pcCheck = 1 ∨ s.pcCheck = 2 ∨ s.pcCheck = 5))

end FreeScribe

namespace FreeScribe

theorem getD_getLast?_cons {α : Type} :
    ∀ (rest : List α) (a prev : α), ((a :: rest).getLast?.getD prev) = rest.getLast?.getD a
  | [], _, _ => rfl
  | b :: l, a, prev => by
      rw [List.getLast?_cons_cons]
      exact (getD_getLast?_cons l b prev).trans (getD_getLast?_cons l b a).symm

theorem deoverlapFrom_append :
    ∀ (q : List (List Frame)) (prev c : List Frame),
      deoverlapFrom prev (q ++ [c]) =
        deoverlapFrom prev q ++
          c.drop (min carryOverFrameCount ((q.getLast?.getD prev).length))
  | [], prev, c => by simp [deoverlapFrom]
  | s :: rest, prev, c => by
      simp only [List.cons_append, deoverlapFrom, List.append_assoc, getD_getLast?_cons,
        List.append_eq]
      rw [deoverlapFrom_append rest s c]

theorem deoverlap_concat (q : List (List Frame)) (c : List Frame) (hq : q ≠ []) :
    deoverlap (q ++ [c]) =
      deoverlap q ++ c.drop (min carryOverFrameCount ((q.getLast?.getD []).length)) := by
  cases q with
  | nil => exact absurd rfl hq
  | cons s rest =>
      simp only [List.cons_append, deoverlap, deoverlapFrom_append, List.append_assoc,
        getD_getLast?_cons]

theorem length_carryOver (c : List Frame) :
    (carryOver c).length = min carryOverFrameCount c.length := by
  have hk : carryOverFrameCount = 3 := rfl
  simp only [carryOver, List.length_drop, hk]
  omega

theorem carryOver_drop_min (c : List Frame) :
    (carryOver c).drop (min carryOverFrameCount c.length) = [] := by
  apply List.drop_eq_nil_of_le
  exact le_of_eq (length_carryOver c)

end FreeScribe

namespace FreeScribe

theorem recInv_step (cfg : RecConfig) (hrt : cfg.whisperRealTime = true)
    (fs : List Frame) (s : RecState) (f : Frame) (h : RecInv fs s) :
    RecInv (fs ++ [f]) (record_audio_step cfg s f) := by
  cases hcut : record_audio_cuts cfg s f with
  | false =>
      have hstep : record_audio_step cfg s f =
          { currentChunk := s.currentChunk ++ [f]
            silentFrames := silentFramesAfter s f
            speechFrames := speechFramesAfter s f
            recordFrames := recordFramesAfter s
            queue := s.queue } := by
        simp [record_audio_step, hcut]
      rw [hstep]
      rcases h with ⟨hq, hchunk⟩ | ⟨hq, hlen, hde⟩
      · exact Or.inl ⟨hq, congrArg (fun l => l ++ [f]) hchunk⟩
      · refine Or.inr ⟨hq, ?_, ?_⟩
        · show min carryOverFrameCount ((s.queue.getLast?.getD []).length) ≤
            (s.currentChunk ++ [f]).length
          rw [List.length_append]
          exact le_trans hlen (by omega)
        · show deoverlap s.queue ++ (s.currentChunk ++ [f]).drop
              (min carryOverFrameCount ((s.queue.getLast?.getD []).length)) = fs ++ [f]
          rw [List.drop_append_of_le_length hlen, ← List.append_assoc, hde]
  | true =>
      have hne : (s.currentChunk ++ [f]).isEmpty = false := by
        simp
      have hstep : record_audio_step cfg s f =
          { currentChunk := carryOver (s.currentChunk ++ [f])
            silentFrames := 0
            speechFrames := 0
            recordFrames := 0
            queue := s.queue ++ [s.currentChunk ++ [f]] } := by
        simp [record_audio_step, hcut, hrt, hne, pad_audio_chunk]
      rw [hstep]
      refine Or.inr ⟨?_, ?_, ?_⟩
      · show s.queue ++ [s.currentChunk ++ [f]] ≠ []
        simp
      · show min carryOverFrameCount
            (((s.queue ++ [s.currentChunk ++ [f]]).getLast?.getD []).length) ≤
            (carryOver (s.currentChunk ++ [f])).length
        rw [List.getLast?_concat, Option.getD_some, length_carryOver]
      · show deoverlap (s.queue ++ [s.currentChunk ++ [f]]) ++
            (carryOver (s.currentChunk ++ [f])).drop (min carryOverFrameCount
              (((s.queue ++ [s.currentChunk ++ [f]]).getLast?.getD []).length)) = fs ++ [f]
        rw [List.getLast?_concat, Option.getD_some, carryOver_drop_min, List.append_nil]
        rcases h with ⟨hq, hchunk⟩ | ⟨hq, hlen, hde⟩
        · rw [hq, List.nil_append, hchunk]
          simp [deoverlap, deoverlapFrom]
        · rw [deoverlap_concat _ _ hq, List.drop_append_of_le_length hlen,
            ← List.append_assoc, hde]

theorem recInv_run (cfg : RecConfig) (hrt : cfg.whisperRealTime = true) :
    ∀ (fs pre : List Frame) (s : RecState), RecInv pre s →
      RecInv (pre ++ fs) (fs.foldl (record_audio_step cfg) s)
  | [], pre, s, h => by simpa using h
  | f :: rest, pre, s, h => by
      have h2 := recInv_run cfg hrt rest (pre ++ [f]) (record_audio_step cfg s f)
        (recInv_step cfg hrt pre s f h)
      simpa [List.append_assoc] using h2

/-- Claim C1: feeding any frame sequence to the capture loop in realtime
mode, the concatenation of all segments pushed onto the audio queue —
with each segment's deliberate carry-over head removed — reconstructs the
original frame stream with no frame dropped, and on stop any non-empty
remaining buffer is flushed onto the queue as one final segment. -/
theorem record_audio_lossless (cfg : RecConfig) (fs : List Frame)
    (hrt : cfg.whisperRealTime = true) :
    deoverlap (record_audio_finish (record_audio_run cfg fs)) = fs ∧
    (∀ s : RecState, s.currentChunk ≠ [] →
      record_audio_finish s = s.queue ++ [s.currentChunk]) := by
  constructor
  · have h : RecInv fs (record_audio_run cfg fs) := by
      unfold record_audio_run
      simpa using recInv_run cfg hrt fs [] record_audio_init (Or.inl ⟨rfl, rfl⟩)
    rcases h with ⟨hq, hchunk⟩ | ⟨hq, hlen, hde⟩
    · unfold record_audio_finish
      rw [hq]
      by_cases hc : (record_audio_run cfg fs).currentChunk.isEmpty
      · rw [if_pos hc]
        rw [List.isEmpty_iff.mp hc] at hchunk
        rw [← hchunk]
        rfl
      · rw [if_neg hc, List.nil_append]
        show deoverlap [(record_audio_run cfg fs).currentChunk] = fs
        rw [hchunk]
        simp [deoverlap, deoverlapFrom]
    · unfold record_audio_finish
      by_cases hc : (record_audio_run cfg fs).currentChunk.isEmpty
      · rw [if_pos hc]
        rw [List.isEmpty_iff.mp hc] at hde
        simpa using hde
      · rw [if_neg hc]
        rw [deoverlap_concat _ _ hq]
        exact hde
  · intro s hs
    unfold record_audio_finish
    rw [if_neg (by simpa [List.isEmpty_iff] using hs)]

/-- Witness for C1 at a concrete configuration and frame stream. -/
theorem record_audio_lossless_witness :
    deoverlap (record_audio_finish (record_audio_run
        { minSilenceSeconds := 0, minAudioSeconds := 0, whisperRealTime := true }
        [{ data := 0, silent := false }, { data := 1, silent := true }])) =
      [{ data := 0, silent := false }, { data := 1, silent := true }] :=
  (record_audio_lossless
    { minSilenceSeconds := 0, minAudioSeconds := 0, whisperRealTime := true }
    [{ data := 0, silent := false }, { data := 1, silent := true }] rfl).1

end FreeScribe

namespace FreeScribe

theorem seconds_ge_int_iff (a : Nat) (m : Int) :
    ((a * CHUNK : Int) ≥ m * RATE) ↔ secondsOf a ≥ (m : ℚ) := by
  unfold secondsOf CHUNK RATE
  rw [ge_iff_le, ge_iff_le, le_div_iff (by norm_num : (0 : ℚ) < (16000 : Nat))]
  push_cast
  constructor
  · intro h
    exact_mod_cast h
  · intro h
    exact_mod_cast h

theorem seconds_gt_int_iff (a : Nat) (m : Int) :
    ((a * CHUNK : Int) > m * RATE) ↔ secondsOf a > (m : ℚ) := by
  unfold secondsOf CHUNK RATE
  rw [gt_iff_lt, gt_iff_lt, lt_div_iff (by norm_num : (0 : ℚ) < (16000 : Nat))]
  push_cast
  constructor
  · intro h
    exact_mod_cast h
  · intro h
    exact_mod_cast h

theorem seconds_gt_three_halves_iff (a : Nat) :
    (a * CHUNK * 2 > 3 * RATE) ↔ secondsOf a > 3 / 2 := by
  unfold secondsOf CHUNK RATE
  rw [gt_iff_lt, gt_iff_lt, div_lt_div_iff (by norm_num : (0 : ℚ) < 2)
    (by norm_num : (0 : ℚ) < (16000 : Nat))]
  push_cast
  constructor
  · intro h
    exact_mod_cast h
  · intro h
    exact_mod_cast h

theorem cutCondition_iff (cfg : RecConfig) (a b c : Nat) :
    cutCondition cfg a b c = true ↔
      (secondsOf a ≥ (cfg.minSilenceSeconds : ℚ) ∧
       secondsOf b > 3 / 2 ∧
       secondsOf c > (cfg.minAudioSeconds : ℚ)) := by
  unfold cutCondition
  simp only [Bool.and_eq_true, decide_eq_true_eq]
  rw [seconds_ge_int_iff, seconds_gt_three_halves_iff, seconds_gt_int_iff, and_assoc]

/-- Claim C2: the capture loop cuts a segment boundary exactly when,
after processing a frame, accumulated silence is at least the configured
minimum silence length, accumulated speech exceeds 1.5 seconds, and the
total duration since the last boundary exceeds the configured minimum
audio length; on a cut all three counters are reset to zero (and
otherwise they keep their post-frame values, so a boundary is never cut
while the total duration is at most the threshold). -/
theorem record_audio_boundary (cfg : RecConfig) (s : RecState) (f : Frame) :
    (record_audio_cuts cfg s f = true ↔
      (secondsOf (silentFramesAfter s f) ≥ (cfg.minSilenceSeconds : ℚ) ∧
       secondsOf (speechFramesAfter s f) > 3 / 2 ∧
       secondsOf (recordFramesAfter s) > (cfg.minAudioSeconds : ℚ))) ∧
    ((record_audio_step cfg s f).silentFrames =
       if record_audio_cuts cfg s f then 0 else silentFramesAfter s f) ∧
    ((record_audio_step cfg s f).speechFrames =
       if record_audio_cuts cfg s f then 0 else speechFramesAfter s f) ∧
    ((record_audio_step cfg s f).recordFrames =
       if record_audio_cuts cfg s f then 0 else recordFramesAfter s) := by
  refine ⟨cutCondition_iff cfg _ _ _, ?_, ?_, ?_⟩ <;>
    cases hcut : record_audio_cuts cfg s f <;>
      simp [record_audio_step, hcut]

/-- Claim C5 counterexample: with the speech probability exactly at the
threshold (0.65, the source default), the probability is ≥ the threshold
— so the claim calls the frame silent — yet `is_silent` classifies it as
speech. -/
theorem is_silent_at_threshold_not_silent :
    is_silent (65 / 100) (65 / 100) = false ∧ (65 / 100 : ℚ) ≥ 65 / 100 := by
  constructor
  · simp [is_silent]
  · exact le_refl _

/-- Claim C5 (amended): a frame is counted as silence exactly when the
VAD speech probability is strictly below the configured threshold, and
as speech otherwise. -/
theorem is_silent_iff_below_threshold (p t : ℚ) :
    is_silent p t = true ↔ p < t := by
  simp [is_silent]

/-- Claim C3 counterexample: with the whole-file cancellation flag set
(and the realtime flag clear) at the moment the local backend result
"hello" is ready, the consumer still publishes the transcript to the UI
and forwards it to the intent-processing collaborator. -/
theorem realtime_publish_ignores_whole_cancel :
    (realtime_text_local_iter true (.ok "hello") false true "").ui =
      [UiEvent.gui "hello", UiEvent.intents "hello"] := rfl

/-- Claim C3 (amended): publication is gated solely on the realtime
cancellation flag at the moment the backend result is ready — the
whole-file flag is not consulted; in particular, if the realtime flag is
set before the backend call returns, that call's result is never
published (the UI keeps only the end-of-iteration intent call on the
previous text) for both the local and the remote path. -/
theorem realtime_publish_gated_on_realtime_flag (t intentText body : String)
    (rc wc : Bool) :
    (realtime_text_local_iter true (.ok t) rc wc intentText =
      if rc then
        { ui := [.intents intentText], intentText := intentText, control := .continueLoop }
      else
        { ui := [.gui t, .intents t], intentText := t, control := .continueLoop }) ∧
    (realtime_text_remote_iter (.response 200 body t) rc wc intentText =
      if rc then
        { ui := [.intents intentText], intentText := intentText, control := .continueLoop }
      else
        { ui := [.gui t, .intents t], intentText := t, control := .continueLoop }) := by
  cases rc <;> exact ⟨rfl, rfl⟩

end FreeScribe

namespace FreeScribe

/-- Claim C6: a failing backend call for one segment — a raised exception
on the local path, or a non-2xx HTTP status on the remote path — makes
the consumer surface an error text containing the failure (with the HTTP
status for the remote path) in place of that segment's transcript, and
the loop continues with the next queued segment. -/
theorem realtime_segment_failure_continues (e body text intentText itR : String)
    (status : Nat) (rcL wcL rcR wcR : Bool)
    (rest : List (Option (Except String String)))
    (hs : status < 200 ∨ 300 ≤ status) :
    ((realtime_text_local_iter true (.error e) rcL wcL intentText).control =
        .continueLoop ∧
     UiEvent.gui ("\nError: " ++ e ++ "\n") ∈
        (realtime_text_local_iter true (.error e) rcL wcL intentText).ui) ∧
    (realtime_text_remote_iter (.response status body text) rcR wcR itR =
      { ui := [.gui ("Error (HTTP Status " ++ toString status ++ "): " ++ body),
               .intents itR]
        intentText := itR
        control := .continueLoop }) ∧
    (realtime_text_local_loop true false false intentText
        (some (.error e) :: rest) =
      ([.gui ("\nError: " ++ e ++ "\n"), .gui "", .intents ""] ++
         (realtime_text_local_loop true false false "" rest).1,
       (realtime_text_local_loop true false false "" rest).2)) := by
  refine ⟨⟨?_, ?_⟩, ?_, ?_⟩
  · cases rcL <;> rfl
  · cases rcL <;> simp [realtime_text_local_iter]
  · have h200 : (status == 200) = false := by
      simp only [beq_eq_false_iff_ne, ne_eq]
      omega
    simp [realtime_text_remote_iter, h200]
  · rfl

/-- Witness for C6 at an exception "boom" and HTTP status 500. -/
theorem realtime_segment_failure_continues_witness :
    ((realtime_text_local_iter true (.error "boom") false false "prev").control =
        .continueLoop ∧
     UiEvent.gui ("\nError: " ++ "boom" ++ "\n") ∈
        (realtime_text_local_iter true (.error "boom") false false "prev").ui) ∧
    (realtime_text_remote_iter (.response 500 "Internal Server Error" "txt")
        false false "prevR" =
      { ui := [.gui ("Error (HTTP Status " ++ toString 500 ++ "): " ++
                  "Internal Server Error"),
               .intents "prevR"]
        intentText := "prevR"
        control := .continueLoop }) ∧
    (realtime_text_local_loop true false false "prev"
        (some (.error "boom") :: []) =
      ([.gui ("\nError: " ++ "boom" ++ "\n"), .gui "", .intents ""] ++
         (realtime_text_local_loop true false false "" []).1,
       (realtime_text_local_loop true false false "" []).2)) :=
  realtime_segment_failure_continues "boom" "Internal Server Error" "txt" "prev" "prevR"
    500 false false false false [] (Or.inr (by norm_num))

/-- Claim C10: in the local realtime path, when the model handle is
absent at the moment a segment is dequeued, the consumer publishes a
"model not loaded" message and terminates its loop immediately — the
dequeued segment's backend is never invoked and every later queue item
(sentinel included) is left unconsumed. -/
theorem realtime_model_absent_breaks (backend : Except String String)
    (rest : List (Option (Except String String))) (intentText : String) :
    realtime_text_local_loop false false false intentText (some backend :: rest) =
      ([UiEvent.gui "Local Whisper model not loaded. Please check your settings."],
       rest) := rfl

/-- Claim C9 counterexample: with the model loaded and a configured beam
size of 0, `faster_whisper_transcribe` neither raises a typed error nor
invokes the model — it returns the error text as an ordinary result
string, so the failure is not observable by the caller as a typed
error. -/
theorem faster_whisper_beam_size_zero_not_raised :
    raisesTypedError (faster_whisper_transcribe true (some 0) "detail" "txt") = false ∧
    (faster_whisper_transcribe true (some 0) "detail" "txt").outcome =
      .returned (beam_size_error_text beam_size_not_positive_text) ∧
    (faster_whisper_transcribe true (some 0) "detail" "txt").modelInvoked = false :=
  ⟨rfl, rfl, rfl⟩

/-- Claim C9 (amended): for every configured beam size that is not an
integer greater than 0, the call does not crash and does not invoke the
underlying model; it returns the beam-size error message as its result
string instead of raising a typed error, so the caller sees it as
ordinary transcript text rather than a typed failure. -/
theorem faster_whisper_invalid_beam_size (b : Option Int) (detail modelText : String)
    (h : b = none ∨ ∃ n : Int, b = some n ∧ n ≤ 0) :
    (faster_whisper_transcribe true b detail modelText).modelInvoked = false ∧
    raisesTypedError (faster_whisper_transcribe true b detail modelText) = false ∧
    ((faster_whisper_transcribe true b detail modelText).outcome =
        .returned (beam_size_error_text detail) ∨
     (faster_whisper_transcribe true b detail modelText).outcome =
        .returned (beam_size_error_text beam_size_not_positive_text)) := by
  rcases h with rfl | ⟨n, rfl, hn⟩
  · exact ⟨rfl, rfl, Or.inl rfl⟩
  · refine ⟨?_, ?_, Or.inr ?_⟩ <;>
      simp [faster_whisper_transcribe, raisesTypedError, hn]

/-- Witness for C9's amended theorem at beam size 0. -/
theorem faster_whisper_invalid_beam_size_witness :
    (faster_whisper_transcribe true (some 0) "d" "t").modelInvoked = false ∧
    raisesTypedError (faster_whisper_transcribe true (some 0) "d" "t") = false ∧
    ((faster_whisper_transcribe true (some 0) "d" "t").outcome =
        .returned (beam_size_error_text "d") ∨
     (faster_whisper_transcribe true (some 0) "d" "t").outcome =
        .returned (beam_size_error_text beam_size_not_positive_text)) :=
  faster_whisper_invalid_beam_size (some 0) "d" "t" (Or.inr ⟨0, rfl, le_refl 0⟩)

/-- Claim C4 counterexample: an interleaving in which the double-check
trigger passes its model check and its lock check before the background
pre-load acquires the lock; both threads then load in turn (serialized
by the lock) and two loads are executed, refuting "concurrent triggers
never duplicate a load". -/
theorem stt_duplicate_load_interleaving :
    stt_exec [false, false, false, true, true, false, false] stt_init =
      { modelLoaded := true, lockLocked := false, loadCount := 2,
        pcCheck := 5, pcLoad := 5 } := rfl

theorem sttSafe_step (s : LoadState) (h : SttSafe s) :
    SttSafe (double_check_thread_step s) ∧ SttSafe (load_thread_step s) := by
  obtain ⟨m, l, c, pcC, pcL⟩ := s
  rcases h with ⟨hm, hl, hc, hpl, hpc | hpc⟩ | ⟨hm, hl, hc, hpl, hpc | hpc | hpc | hpc⟩ <;>
    subst hm <;> subst hl <;> subst hc <;> subst hpl <;> subst hpc <;>
      exact ⟨by unfold SttSafe double_check_thread_step; decide,
             by unfold SttSafe load_thread_step; decide⟩

theorem stt_exec_safe :
    ∀ (sched : List Bool) (s : LoadState), SttSafe s → SttSafe (stt_exec sched s)
  | [], _, h => h
  | t :: rest, s, h => by
      cases t
      · exact stt_exec_safe rest _ (sttSafe_step s h).1
      · exact stt_exec_safe rest _ (sttSafe_step s h).2

/-- Claim C4 (amended): when the background pre-load acquires the load
lock before the start-recording double check takes any step, the lock
wait and the re-check prevent duplication — at most one load is ever
executed along any such interleaving, and a completed run executes
exactly one. -/
theorem stt_single_load_when_preload_locks_first (rest : List Bool) :
    (stt_exec (true :: rest) stt_init).loadCount ≤ 1 ∧
    stt_exec [true, true, false, false, false] stt_init =
      { modelLoaded := true, lockLocked := false, loadCount := 1,
        pcCheck := 5, pcLoad := 5 } := by
  constructor
  · have h0 : SttSafe (load_thread_step stt_init) := by
      exact Or.inl (by decide)
    have h := stt_exec_safe rest (load_thread_step stt_init) h0
    show (stt_exec rest (load_thread_step stt_init)).loadCount ≤ 1
    rcases h with ⟨_, _, hc, _, _⟩ | ⟨_, _, hc, _, _⟩ <;> omega
  · rfl

end FreeScribe

namespace FreeScribe

theorem count_none_map_some (l : List (List Frame)) :
    ((l.map some ++ [none] : List (Option (List Frame))).count none) = 1 := by
  rw [List.count_append]
  have h0 : ((l.map some : List (Option (List Frame))).count none) = 0 := by
    rw [List.count_eq_zero]
    simp
  rw [h0]
  rfl

/-- Claim C7: on each of the capture loop's termination paths — normal
stop, failure to open the microphone stream, or an exception during a
device read — exactly one `None` sentinel is pushed onto the segment
queue, as its last element; on a read failure the segments already
queued remain in the queue ahead of the sentinel, so the consumer can
still drain them. -/
theorem record_audio_sentinel (cfg : RecConfig) (fs gs : List Frame) :
    record_audio_queue cfg .openFailure = [none] ∧
    ((record_audio_queue cfg (.normalStop fs)).count none = 1 ∧
     (record_audio_queue cfg (.normalStop fs)).getLast? = some none) ∧
    (record_audio_queue cfg (.readException gs) =
        ((record_audio_run cfg gs).queue).map some ++ [none] ∧
     (record_audio_queue cfg (.readException gs)).count none = 1) := by
  refine ⟨rfl, ⟨?_, ?_⟩, rfl, ?_⟩
  · exact count_none_map_some _
  · exact List.getLast?_concat _
  · exact count_none_map_some _

theorem double_check_wait_loop_total (cancelAt lockLockedAt : Nat → Bool) :
    ∀ fuel n : Nat, 3000 - n < fuel →
      (double_check_wait_loop cancelAt lockLockedAt fuel n).isSome = true := by
  intro fuel
  induction fuel with
  | zero =>
      intro n h
      omega
  | succ fuel ih =>
      intro n h
      unfold double_check_wait_loop
      cases hc : cancelAt n with
      | true => simp [hc]
      | false =>
          by_cases ht : ((n + 1 : ℚ) / 10 > (double_check_timeout : ℚ))
          · simp [hc, ht]
          · cases hl : lockLockedAt n with
            | false => simp [hc, ht, hl]
            | true =>
                simp only [hc, ht, hl, Bool.false_eq_true, if_false, Bool.not_true,
                  if_true]
                apply ih
                have hn : n + 1 ≤ 3000 := by
                  by_contra hcon
                  push_neg at hcon
                  apply ht
                  have hq : (3001 : ℚ) ≤ ((n : ℚ) + 1) := by
                    exact_mod_cast hcon
                  have h300 : ((double_check_timeout : ℚ)) = 300 := by
                    norm_num [double_check_timeout]
                  rw [gt_iff_lt, h300, lt_div_iff (by norm_num : (0 : ℚ) < 10)]
                  linarith
                omega

/-- Claim C8: the model-load wait polls with the hardcoded 300-second
bound — the polling loop always returns within 3001 iterations of 0.1 s
each, for every cancel/lock behaviour; a user cancel aborts the wait at
its next poll and is reported as a cancellation (no error shown,
recording does not start), while exceeding the timeout surfaces the
load-timeout error and recording does not start. -/
theorem double_check_wait_bounded (cancelAt lockLockedAt : Nat → Bool) :
    (double_check_wait_loop cancelAt lockLockedAt 3001 0).isSome = true ∧
    (∀ fuel n : Nat,
       double_check_wait_loop (fun _ => true) lockLockedAt (fuel + 1) n =
         some .canceled) ∧
    double_check_outcome .canceled =
      { startRecording := false, timeoutErrorShown := false, reportedCanceled := true } ∧
    double_check_outcome .timedOut =
      { startRecording := false, timeoutErrorShown := true, reportedCanceled := true } ∧
    double_check_timeout = 300 := by
  refine ⟨?_, ?_, rfl, rfl, rfl⟩
  · exact double_check_wait_loop_total cancelAt lockLockedAt 3001 0 (by omega)
  · intro fuel n
    unfold double_check_wait_loop
    simp

end FreeScribe
